import Mathlib

/-!
Shallow embedding of the CinemaToday session client
(frontend page component: `fetchGame`, `handleSubmitGuess`,
`posterBlurAmount`, `clueProgressPercent`).

Network I/O is modelled by passing the responses of the collaborator
explicitly: `fetchGame` receives the response to the n-th fetch as a
function `Nat → FetchOutcome`, and `handleSubmitGuess` receives the
outcome of its single POST.  Each operation returns the new component
state together with the number of network calls it issued (for the
guess handler, a Bool: whether the POST was issued at all).
JS numbers that hold integers are modelled as Nat; the two derived
display quantities are modelled over ℚ, with `Number.toFixed(2)`
modelled as rounding to two decimal places.
-/

/-- Response of `GET /today-game` (type `TodayGameResponse` in the source). -/
structure TodayGameResponse where
  game_date : String
  movie_slug : String
  total_clues : Nat
  current_clue_index : Nat
  current_clue_text : String
  solved : Bool
  poster_url : Option String
deriving DecidableEq

/-- Response of `POST /guess` (type `GuessResponse` in the source). -/
structure GuessResponse where
  correct : Bool
  finished : Bool
  next_clue_index : Nat
  next_clue_text : Option String
  reveal_title : Option String
  reveal_poster_url : Option String
  message : String
deriving DecidableEq

/-- The reactive state cells of the component (the `useState` hooks of `HomePage`). -/
structure AppState where
  game : Option TodayGameResponse
  currentClueIndex : Nat
  currentClueText : Option String
  isLoadingGame : Bool
  guess : String
  statusMessage : Option String
  finished : Bool
  revealedTitle : Option String
  posterUrl : Option String
  previousClues : List String
deriving DecidableEq

/-- The initial values of the `useState` hooks. -/
def initialState : AppState :=
  { game := none
    currentClueIndex := 0
    currentClueText := none
    isLoadingGame := false
    guess := ""
    statusMessage := none
    finished := false
    revealedTitle := none
    posterUrl := none
    previousClues := [] }

/-- JS truthiness of a `string | null` value: truthy iff non-null and non-empty. -/
def jsTruthyStr : Option String → Bool
  | none => false
  | some s => !(s == "")

/-- Outcome of one `fetch(API_BASE_URL + "/today-game")`: `ok` carries the
decoded JSON; `transport` covers both a rejected fetch and a non-ok
response status (the source throws on `!res.ok`, merging the two). -/
inductive FetchOutcome where
  | ok (data : TodayGameResponse)
  | transport
deriving DecidableEq

/-- How the `while` loop in `fetchGame` ended: a game was accepted, the
attempt budget ran out (`nextGame` still null), or an iteration threw. -/
inductive LoopResult where
  | found (data : TodayGameResponse)
  | exhausted
  | threw
deriving DecidableEq

/-- The acceptance test of the loop body:
`!requireDifferent || !excludeSlug || data.movie_slug !== excludeSlug`.
A null or empty `excludeSlug` is falsy, so it disables the check. -/
def acceptGame (requireDifferent : Bool) (excludeSlug : Option String)
    (slug : String) : Bool :=
  !requireDifferent ||
    (match excludeSlug with
     | none => true
     | some e => (e == "") || !(slug == e))

/-- The `while (attempt < maxAttempts)` loop of `fetchGame`, recursing on the
remaining attempts; `idx` is the index of the next network call, and the
second component of the result is the number of calls this loop made. -/
def fetchLoop (collab : Nat → FetchOutcome) (requireDifferent : Bool)
    (excludeSlug : Option String) : Nat → Nat → LoopResult × Nat
  | 0, _ => (LoopResult.exhausted, 0)
  | fuel + 1, idx =>
    match collab idx with
    | FetchOutcome.transport => (LoopResult.threw, 1)
    | FetchOutcome.ok data =>
      if acceptGame requireDifferent excludeSlug data.movie_slug then
        (LoopResult.found data, 1)
      else
        let r := fetchLoop collab requireDifferent excludeSlug fuel (idx + 1)
        (r.1, r.2 + 1)

/-- Options record of `fetchGame`; the source defaults `requireDifferent` to
`false` and `excludeSlug` to `null` when absent. -/
structure FetchOptions where
  requireDifferent : Bool
  excludeSlug : Option String
deriving DecidableEq

/-- `fetchGame` from the source, as a state transformer.  `collab n` is the
response to the n-th `fetch`; the returned Nat is the number of fetches
issued.  The whole async body is applied as one state transition. -/
def fetchGame (collab : Nat → FetchOutcome) (options : FetchOptions)
    (st : AppState) : AppState × Nat :=
  let requireDifferent := options.requireDifferent
  let excludeSlug := options.excludeSlug
  let st1 : AppState :=
    { st with
      isLoadingGame := true
      statusMessage := if !requireDifferent then none else st.statusMessage }
  let maxAttempts : Nat := if requireDifferent then 5 else 1
  match fetchLoop collab requireDifferent excludeSlug maxAttempts 0 with
  | (LoopResult.found nextGame, n) =>
    ({ st1 with
        game := some nextGame
        currentClueIndex := nextGame.current_clue_index
        currentClueText := some nextGame.current_clue_text
        posterUrl := nextGame.poster_url
        previousClues := []
        guess := ""
        finished := false
        revealedTitle := none
        statusMessage := if requireDifferent then none else st1.statusMessage
        isLoadingGame := false }, n)
  | (LoopResult.exhausted, n) =>
    ({ st1 with
        statusMessage :=
          some "Could not find a different movie right now. Try again."
        isLoadingGame := false }, n)
  | (LoopResult.threw, n) =>
    ({ st1 with
        statusMessage :=
          some (if requireDifferent then
                  "Could not load a new movie. Please try again."
                else "Could not load today\x27s game.")
        isLoadingGame := false }, n)

/-- Outcome of the single `fetch(API_BASE_URL + "/guess", ...)`: `ok` carries
the decoded verdict; `transport` covers a rejected fetch and `!res.ok`. -/
inductive GuessOutcome where
  | ok (data : GuessResponse)
  | transport
deriving DecidableEq

/-- `handleSubmitGuess` from the source, as a state transformer.  `outcome`
is the answer of the collaborator to the POST; the returned Bool records
whether the POST was issued (the `if (!game || finished) return` guard
fires before any network call). -/
def handleSubmitGuess (outcome : GuessOutcome) (st : AppState) :
    AppState × Bool :=
  if st.game.isNone || st.finished then (st, false)
  else
    match outcome with
    | GuessOutcome.transport =>
      ({ st with
          statusMessage := some "Something went wrong when submitting your guess."
          guess := "" }, true)
    | GuessOutcome.ok data =>
      let st1 : AppState := { st with statusMessage := some data.message }
      if data.correct || data.finished then
        ({ st1 with
            finished := true
            revealedTitle := data.reveal_title
            posterUrl :=
              if jsTruthyStr data.reveal_poster_url then data.reveal_poster_url
              else st1.posterUrl
            currentClueText :=
              if jsTruthyStr data.next_clue_text then data.next_clue_text
              else st1.currentClueText
            guess := "" }, true)
      else
        ({ st1 with
            previousClues :=
              match st1.currentClueText with
              | some t => if t == "" then st1.previousClues
                          else st1.previousClues ++ [t]
              | none => st1.previousClues
            currentClueIndex := data.next_clue_index
            currentClueText := data.next_clue_text
            guess := "" }, true)

/-- `Number(x.toFixed(2))`: round to two decimal places (ties away from the
smaller value, as in the JS specification rule "pick the larger n"). -/
def round2 (q : ℚ) : ℚ := ((round (100 * q) : ℤ) : ℚ) / 100

/-- The `posterBlurAmount` memo.  Returns 0 when there is no game, the
poster URL is null/empty, or the session is finished; otherwise the
linear interpolation from the source, rounded via `toFixed(2)`. -/
def posterBlurAmount (st : AppState) : ℚ :=
  match st.game with
  | none => 0
  | some game =>
    if !jsTruthyStr st.posterUrl then 0
    else if st.finished then 0
    else
      let maxBlur : ℚ := 30
      let minBlur : ℚ := 12
      let totalSteps : ℚ := max ((game.total_clues : ℚ) - 1) 1
      let progressRatio : ℚ := min ((st.currentClueIndex : ℚ) / totalSteps) 1
      let blurRange : ℚ := maxBlur - minBlur
      round2 (maxBlur - progressRatio * blurRange)

/-- The `clueProgressPercent` memo (the model assumes `total_clues ≥ 1`, per
the data model; the source would produce Infinity on `total_clues = 0`). -/
def clueProgressPercent (st : AppState) : ℚ :=
  match st.game with
  | none => 0
  | some game =>
    min (((st.currentClueIndex : ℚ) + 1) / (game.total_clues : ℚ) * 100) 100

/-- Folding a list of successful guess verdicts through the guess handler. -/
def runGuesses (st : AppState) (rs : List GuessResponse) : AppState :=
  rs.foldl (fun s r => (handleSubmitGuess (GuessOutcome.ok r) s).1) st

/-- The clue text that is current immediately before each guess of a run. -/
def guessTrace (st : AppState) : List GuessResponse → List (Option String)
  | [] => []
  | r :: rs =>
    st.currentClueText ::
      guessTrace (handleSubmitGuess (GuessOutcome.ok r) st).1 rs

/-! ### Concrete fixtures used in scenario parts and witnesses -/

/-- A sample session with slug "B". -/
def sampleGameB : TodayGameResponse :=
  { game_date := "2025-01-01"
    movie_slug := "B"
    total_clues := 5
    current_clue_index := 0
    current_clue_text := "C1"
    solved := false
    poster_url := some "p" }

/-- A sample session with slug "A". -/
def sampleGameA : TodayGameResponse := { sampleGameB with movie_slug := "A" }

/-- A collaborator that always answers with the slug-"A" session. -/
def collabAlwaysA : Nat → FetchOutcome := fun _ => FetchOutcome.ok sampleGameA

/-- A collaborator answering "A", "A", then "B" forever. -/
def collabAAB : Nat → FetchOutcome := fun n =>
  if n < 2 then FetchOutcome.ok sampleGameA else FetchOutcome.ok sampleGameB

/-! ### Lemmas about the retry loop -/

/-- The loop makes at most `fuel` network calls. -/
theorem fetchLoop_calls_le (collab : Nat → FetchOutcome) (req : Bool)
    (ex : Option String) : ∀ fuel idx, (fetchLoop collab req ex fuel idx).2 ≤ fuel := by
  intro fuel
  induction fuel with
  | zero => intro idx; simp [fetchLoop]
  | succ n ih =>
    intro idx
    simp only [fetchLoop]
    cases collab idx with
    | transport => simp
    | ok data =>
      by_cases h : acceptGame req ex data.movie_slug
      · simp [h]
      · simpa [h] using ih (idx + 1)

/-- If the first `k` responses are rejected and the `(k+1)`-st is accepted,
the loop stops there with `k + 1` calls. -/
theorem fetchLoop_first_accept (collab : Nat → FetchOutcome) (req : Bool)
    (ex : Option String) (gs : Nat → TodayGameResponse) :
    ∀ k fuel idx, k < fuel →
    (∀ i, i < k → collab (idx + i) = FetchOutcome.ok (gs (idx + i)) ∧
      acceptGame req ex (gs (idx + i)).movie_slug = false) →
    (∀ g, collab (idx + k) = FetchOutcome.ok g →
      acceptGame req ex g.movie_slug = true →
      fetchLoop collab req ex fuel idx = (LoopResult.found g, k + 1)) := by
  intro k
  induction k with
  | zero =>
    intro fuel idx hk _ g hg hacc
    obtain ⟨fuel, rfl⟩ : ∃ m, fuel = m + 1 :=
      ⟨fuel - 1, (Nat.succ_pred_eq_of_pos hk).symm⟩
    simp only [fetchLoop]
    rw [Nat.add_zero] at hg
    rw [hg]
    simp [hacc]
  | succ k ih =>
    intro fuel idx hk hrej g hg hacc
    obtain ⟨fuel, rfl⟩ : ∃ m, fuel = m + 1 :=
      ⟨fuel - 1, (Nat.succ_pred_eq_of_pos (Nat.lt_of_le_of_lt (Nat.zero_le _) hk)).symm⟩
    have h0 := hrej 0 (Nat.succ_pos k)
    rw [Nat.add_zero] at h0
    simp only [fetchLoop, h0.1]
    simp only [h0.2, Bool.false_eq_true, if_false]
    have hrec := ih fuel (idx + 1) (Nat.lt_of_succ_lt_succ hk)
      (fun i hi => by
        have := hrej (i + 1) (Nat.succ_lt_succ hi)
        rwa [show idx + (i + 1) = idx + 1 + i by omega] at this)
      g (by rwa [show idx + 1 + k = idx + (k + 1) by omega]) hacc
    simp [hrec]

/-- If every response within the budget is rejected, the loop exhausts its
fuel, making exactly `fuel` calls. -/
theorem fetchLoop_all_rejected (collab : Nat → FetchOutcome) (req : Bool)
    (ex : Option String) (gs : Nat → TodayGameResponse) :
    ∀ fuel idx,
    (∀ i, i < fuel → collab (idx + i) = FetchOutcome.ok (gs (idx + i)) ∧
      acceptGame req ex (gs (idx + i)).movie_slug = false) →
    fetchLoop collab req ex fuel idx = (LoopResult.exhausted, fuel) := by
  intro fuel
  induction fuel with
  | zero => intro idx _; simp [fetchLoop]
  | succ n ih =>
    intro idx hrej
    have h0 := hrej 0 (Nat.succ_pos n)
    rw [Nat.add_zero] at h0
    simp only [fetchLoop, h0.1]
    simp only [h0.2, Bool.false_eq_true, if_false]
    have hrec := ih (idx + 1) (fun i hi => by
      have := hrej (i + 1) (Nat.succ_lt_succ hi)
      rwa [show idx + (i + 1) = idx + 1 + i by omega] at this)
    simp [hrec]

/-- If the first `k` responses are rejected and the `(k+1)`-st network call
fails (transport error or non-ok status), the loop throws after `k + 1`
calls: the failure is not retried. -/
theorem fetchLoop_transport_aborts (collab : Nat → FetchOutcome) (req : Bool)
    (ex : Option String) (gs : Nat → TodayGameResponse) :
    ∀ k fuel idx, k < fuel →
    (∀ i, i < k → collab (idx + i) = FetchOutcome.ok (gs (idx + i)) ∧
      acceptGame req ex (gs (idx + i)).movie_slug = false) →
    collab (idx + k) = FetchOutcome.transport →
    fetchLoop collab req ex fuel idx = (LoopResult.threw, k + 1) := by
  intro k
  induction k with
  | zero =>
    intro fuel idx hk _ hg
    obtain ⟨fuel, rfl⟩ : ∃ m, fuel = m + 1 :=
      ⟨fuel - 1, (Nat.succ_pred_eq_of_pos hk).symm⟩
    rw [Nat.add_zero] at hg
    simp [fetchLoop, hg]
  | succ k ih =>
    intro fuel idx hk hrej hg
    obtain ⟨fuel, rfl⟩ : ∃ m, fuel = m + 1 :=
      ⟨fuel - 1, (Nat.succ_pred_eq_of_pos (Nat.lt_of_le_of_lt (Nat.zero_le _) hk)).symm⟩
    have h0 := hrej 0 (Nat.succ_pos k)
    rw [Nat.add_zero] at h0
    simp only [fetchLoop, h0.1]
    simp only [h0.2, Bool.false_eq_true, if_false]
    have hrec := ih fuel (idx + 1) (Nat.lt_of_succ_lt_succ hk)
      (fun i hi => by
        have := hrej (i + 1) (Nat.succ_lt_succ hi)
        rwa [show idx + (i + 1) = idx + 1 + i by omega] at this)
      (by rwa [show idx + 1 + k = idx + (k + 1) by omega])
    simp [hrec]

/-- Unfolding `fetchGame` when the loop accepted a game: the whole session
is replaced and the status message ends up cleared. -/
theorem fetchGame_found (collab : Nat → FetchOutcome) (options : FetchOptions)
    (st : AppState) (g : TodayGameResponse) (n : Nat)
    (h : fetchLoop collab options.requireDifferent options.excludeSlug
          (if options.requireDifferent then 5 else 1) 0 = (LoopResult.found g, n)) :
    fetchGame collab options st =
      ({ st with
          game := some g
          currentClueIndex := g.current_clue_index
          currentClueText := some g.current_clue_text
          posterUrl := g.poster_url
          previousClues := []
          guess := ""
          finished := false
          revealedTitle := none
          statusMessage := none
          isLoadingGame := false }, n) := by
  obtain ⟨req, ex⟩ := options
  cases req <;> simp_all [fetchGame]

/-- Unfolding `fetchGame` when the loop exhausted its attempts. -/
theorem fetchGame_exhausted (collab : Nat → FetchOutcome) (options : FetchOptions)
    (st : AppState) (n : Nat)
    (h : fetchLoop collab options.requireDifferent options.excludeSlug
          (if options.requireDifferent then 5 else 1) 0 = (LoopResult.exhausted, n)) :
    fetchGame collab options st =
      ({ st with
          statusMessage :=
            some "Could not find a different movie right now. Try again."
          isLoadingGame := false }, n) := by
  obtain ⟨req, ex⟩ := options
  cases req <;> simp_all [fetchGame]

/-- Unfolding `fetchGame` when an iteration threw. -/
theorem fetchGame_threw (collab : Nat → FetchOutcome) (options : FetchOptions)
    (st : AppState) (n : Nat)
    (h : fetchLoop collab options.requireDifferent options.excludeSlug
          (if options.requireDifferent then 5 else 1) 0 = (LoopResult.threw, n)) :
    fetchGame collab options st =
      ({ st with
          statusMessage :=
            some (if options.requireDifferent then
                    "Could not load a new movie. Please try again."
                  else "Could not load today\x27s game.")
          isLoadingGame := false }, n) := by
  obtain ⟨req, ex⟩ := options
  cases req <;> simp_all [fetchGame]

/-- The number of fetches `fetchGame` reports is the number the loop made. -/
theorem fetchGame_calls (collab : Nat → FetchOutcome) (options : FetchOptions)
    (st : AppState) :
    (fetchGame collab options st).2 =
      (fetchLoop collab options.requireDifferent options.excludeSlug
        (if options.requireDifferent then 5 else 1) 0).2 := by
  obtain ⟨req, ex⟩ := options
  rcases h : fetchLoop collab req ex (if req then 5 else 1) 0 with ⟨res, n⟩
  cases res <;> cases req <;> simp_all [fetchGame]

/-- With a non-empty exclusion slug, the loop accepts exactly the sessions
whose slug differs. -/
theorem acceptGame_excluding (e : String) (he : e ≠ "") (slug : String) :
    acceptGame true (some e) slug = !(slug == e) := by
  simp [acceptGame, he]

/-- Claim C2: for every exclusion load (excludeSlug present and non-empty),
the loader issues at most 5 sequential fetches and accepts the first
fetched session whose movie_slug differs from excludeSlug; against a
collaborator that always returns the excluded slug it makes exactly 5
attempts and reports no alternative found, and against a collaborator
returning the excluded slug twice then a different slug it accepts the
different slug on the third attempt. -/
theorem C2_exclusion_load_retry :
    (∀ (collab : Nat → FetchOutcome) (st : AppState) (e : String),
      (fetchGame collab ⟨true, some e⟩ st).2 ≤ 5) ∧
    (∀ (collab : Nat → FetchOutcome) (st : AppState) (e : String)
      (gs : Nat → TodayGameResponse) (g : TodayGameResponse) (k : Nat),
      e ≠ "" → k < 5 →
      (∀ i, i < k → collab i = FetchOutcome.ok (gs i) ∧ (gs i).movie_slug = e) →
      collab k = FetchOutcome.ok g → g.movie_slug ≠ e →
      (fetchGame collab ⟨true, some e⟩ st).1.game = some g ∧
      (fetchGame collab ⟨true, some e⟩ st).2 = k + 1) ∧
    ((fetchGame collabAlwaysA ⟨true, some "A"⟩ initialState).2 = 5 ∧
      (fetchGame collabAlwaysA ⟨true, some "A"⟩ initialState).1.statusMessage =
        some "Could not find a different movie right now. Try again." ∧
      (fetchGame collabAlwaysA ⟨true, some "A"⟩ initialState).1.game = none) ∧
    ((fetchGame collabAAB ⟨true, some "A"⟩ initialState).1.game = some sampleGameB ∧
      (fetchGame collabAAB ⟨true, some "A"⟩ initialState).2 = 3) := by
  refine ⟨?_, ?_, by decide, by decide⟩
  · intro collab st e
    rw [fetchGame_calls]
    simpa using fetchLoop_calls_le collab true (some e) 5 0
  · intro collab st e gs g k he hk hrej hg hne
    have hloop : fetchLoop collab true (some e) 5 0 = (LoopResult.found g, k + 1) := by
      refine fetchLoop_first_accept collab true (some e) gs k 5 0 hk
        (fun i hi => ?_) g (by simpa using hg) ?_
      · have := hrej i hi
        refine ⟨by simpa using this.1, ?_⟩
        rw [acceptGame_excluding e he]
        simp [this.2]
      · rw [acceptGame_excluding e he]
        simp [hne]
    have := fetchGame_found collab ⟨true, some e⟩ st g (k + 1) (by simpa using hloop)
    simp [this]

/-- Witness for C2: the general first-acceptance part, instantiated with the
"A","A","B" collaborator, excluded slug "A", accepted after 3 fetches. -/
theorem C2_exclusion_load_retry_witness :
    (fetchGame collabAAB ⟨true, some "A"⟩ initialState).1.game = some sampleGameB ∧
    (fetchGame collabAAB ⟨true, some "A"⟩ initialState).2 = 2 + 1 :=
  C2_exclusion_load_retry.2.1 collabAAB initialState "A" (fun _ => sampleGameA)
    sampleGameB 2 (by decide) (by decide) (by decide) (by decide) (by decide)

/-- A collaborator whose first call fails in transport and which would
return the slug-"B" session on any later call. -/
def collabTB : Nat → FetchOutcome := fun n =>
  if n = 0 then FetchOutcome.transport else FetchOutcome.ok sampleGameB

/-- Counterexample to C4: during an exclusion load excluding "A", a transport
failure on the first attempt stops the loop after a single fetch with the
fatal-load message, even though the very next fetch would have produced a
different slug; the loop does not continue and the no-alternative-found
outcome is not reported. -/
theorem C4_transport_counterexample :
    (fetchGame collabTB ⟨true, some "A"⟩ initialState).2 = 1 ∧
    (fetchGame collabTB ⟨true, some "A"⟩ initialState).1.statusMessage =
      some "Could not load a new movie. Please try again." ∧
    (fetchGame collabTB ⟨true, some "A"⟩ initialState).1.statusMessage ≠
      some "Could not find a different movie right now. Try again." ∧
    collabTB 1 = FetchOutcome.ok sampleGameB ∧ sampleGameB.movie_slug ≠ "A" := by
  decide

/-- Amended C4: during an exclusion load, a transport failure does not count
toward the 5-attempt budget — it aborts the loop at once, after k+1 fetches
when it strikes on attempt k+1, yielding the fetch-failed message and
leaving the session state otherwise unchanged; the non-fatal
no-alternative-found outcome is returned only when all 5 attempts complete
and every one returns the excluded slug. -/
theorem C4_failure_outcomes :
    (∀ (collab : Nat → FetchOutcome) (st : AppState) (e : String)
      (gs : Nat → TodayGameResponse) (k : Nat),
      e ≠ "" → k < 5 →
      (∀ i, i < k → collab i = FetchOutcome.ok (gs i) ∧ (gs i).movie_slug = e) →
      collab k = FetchOutcome.transport →
      fetchGame collab ⟨true, some e⟩ st =
        ({ st with
            statusMessage := some "Could not load a new movie. Please try again."
            isLoadingGame := false }, k + 1)) ∧
    (∀ (collab : Nat → FetchOutcome) (st : AppState) (e : String)
      (gs : Nat → TodayGameResponse),
      e ≠ "" →
      (∀ i, i < 5 → collab i = FetchOutcome.ok (gs i) ∧ (gs i).movie_slug = e) →
      fetchGame collab ⟨true, some e⟩ st =
        ({ st with
            statusMessage :=
              some "Could not find a different movie right now. Try again."
            isLoadingGame := false }, 5)) := by
  constructor
  · intro collab st e gs k he hk hrej hg
    have hloop : fetchLoop collab true (some e) 5 0 = (LoopResult.threw, k + 1) := by
      refine fetchLoop_transport_aborts collab true (some e) gs k 5 0 hk
        (fun i hi => ?_) (by simpa using hg)
      · have := hrej i hi
        refine ⟨by simpa using this.1, ?_⟩
        rw [acceptGame_excluding e he]
        simp [this.2]
    simpa using fetchGame_threw collab ⟨true, some e⟩ st (k + 1) (by simpa using hloop)
  · intro collab st e gs he hrej
    have hloop : fetchLoop collab true (some e) 5 0 = (LoopResult.exhausted, 5) := by
      refine fetchLoop_all_rejected collab true (some e) gs 5 0 (fun i hi => ?_)
      have := hrej i hi
      refine ⟨by simpa using this.1, ?_⟩
      rw [acceptGame_excluding e he]
      simp [this.2]
    exact fetchGame_exhausted collab ⟨true, some e⟩ st 5 (by simpa using hloop)

/-- Witness for C4 (amended): transport failure on the very first attempt of
an exclusion load excluding "A" ends the load after one fetch with the
fetch-failed message. -/
theorem C4_failure_outcomes_witness :
    fetchGame collabTB ⟨true, some "A"⟩ initialState =
      ({ initialState with
          statusMessage := some "Could not load a new movie. Please try again."
          isLoadingGame := false }, 0 + 1) :=
  C4_failure_outcomes.1 collabTB initialState "A" (fun _ => sampleGameB) 0
    (by decide) (by decide) (by decide) (by decide)

/-- Claim C10: when a load is requested with requireDifferent = true but
excludeSlug null/absent or the empty string, the exclusion check is
skipped: the first successful fetch is accepted after a single attempt,
whatever its movie_slug. -/
theorem C10_falsy_exclude_skips_check (collab : Nat → FetchOutcome)
    (st : AppState) (ex : Option String) (g : TodayGameResponse)
    (h0 : collab 0 = FetchOutcome.ok g) (hex : ex = none ∨ ex = some "") :
    (fetchGame collab ⟨true, ex⟩ st).1.game = some g ∧
    (fetchGame collab ⟨true, ex⟩ st).2 = 1 := by
  have hacc : acceptGame true ex g.movie_slug = true := by
    rcases hex with rfl | rfl <;> simp [acceptGame]
  have hloop : fetchLoop collab true ex 5 0 = (LoopResult.found g, 1) :=
    fetchLoop_first_accept collab true ex (fun _ => g) 0 5 0 (by omega)
      (by omega) g (by simpa using h0) hacc
  have := fetchGame_found collab ⟨true, ex⟩ st g 1 (by simpa using hloop)
  simp [this]

/-- A collaborator that always returns the slug-"x" session — the very slug
the caller of the C10 witness intends to exclude. -/
def collabX : Nat → FetchOutcome := fun _ =>
  FetchOutcome.ok { sampleGameB with movie_slug := "x" }

/-- Witness for C10: requireDifferent with an empty excludeSlug accepts the
slug-"x" session on the first fetch even though "x" was meant to be
excluded. -/
theorem C10_falsy_exclude_skips_check_witness :
    (fetchGame collabX ⟨true, some ""⟩ initialState).1.game =
      some { sampleGameB with movie_slug := "x" } ∧
    (fetchGame collabX ⟨true, some ""⟩ initialState).2 = 1 :=
  C10_falsy_exclude_skips_check collabX initialState (some "")
    { sampleGameB with movie_slug := "x" } (by decide) (Or.inr rfl)

/-- Claim C7: every failure is non-fatal and atomic. A failed or exhausted
reload leaves the session fields unchanged and only sets a status message;
a failed guess submission leaves clue progress unchanged, sets a status
message, and clears only the guess input. -/
theorem C7_failures_atomic :
    (∀ (collab : Nat → FetchOutcome) (options : FetchOptions) (st : AppState),
      ((fetchLoop collab options.requireDifferent options.excludeSlug
          (if options.requireDifferent then 5 else 1) 0).1 = LoopResult.exhausted ∨
       (fetchLoop collab options.requireDifferent options.excludeSlug
          (if options.requireDifferent then 5 else 1) 0).1 = LoopResult.threw) →
      (fetchGame collab options st).1.game = st.game ∧
      (fetchGame collab options st).1.currentClueIndex = st.currentClueIndex ∧
      (fetchGame collab options st).1.currentClueText = st.currentClueText ∧
      (fetchGame collab options st).1.previousClues = st.previousClues ∧
      (fetchGame collab options st).1.finished = st.finished ∧
      (fetchGame collab options st).1.revealedTitle = st.revealedTitle ∧
      (fetchGame collab options st).1.posterUrl = st.posterUrl ∧
      (fetchGame collab options st).1.guess = st.guess ∧
      ∃ m, (fetchGame collab options st).1.statusMessage = some m) ∧
    (∀ st : AppState, st.game.isNone = false → st.finished = false →
      (handleSubmitGuess GuessOutcome.transport st).1.currentClueIndex =
        st.currentClueIndex ∧
      (handleSubmitGuess GuessOutcome.transport st).1.currentClueText =
        st.currentClueText ∧
      (handleSubmitGuess GuessOutcome.transport st).1.previousClues =
        st.previousClues ∧
      (handleSubmitGuess GuessOutcome.transport st).1.finished = st.finished ∧
      (handleSubmitGuess GuessOutcome.transport st).1.game = st.game ∧
      (handleSubmitGuess GuessOutcome.transport st).1.revealedTitle =
        st.revealedTitle ∧
      (handleSubmitGuess GuessOutcome.transport st).1.posterUrl = st.posterUrl ∧
      (handleSubmitGuess GuessOutcome.transport st).1.statusMessage =
        some "Something went wrong when submitting your guess." ∧
      (handleSubmitGuess GuessOutcome.transport st).1.guess = "") := by
  constructor
  · intro collab options st h
    rcases hl : fetchLoop collab options.requireDifferent options.excludeSlug
        (if options.requireDifferent then 5 else 1) 0 with ⟨res, n⟩
    rw [hl] at h
    simp only at h
    rcases h with rfl | rfl
    · have := fetchGame_exhausted collab options st n hl
      simp [this]
    · have := fetchGame_threw collab options st n hl
      simp [this]
  · intro st hg hf
    simp [handleSubmitGuess, hg, hf]

/-- A state holding a loaded, unfinished slug-"B" session mid-game. -/
def sampleActiveState : AppState :=
  { initialState with
      game := some sampleGameB
      currentClueIndex := 1
      currentClueText := some "C2"
      posterUrl := some "p"
      previousClues := ["C1"]
      guess := "typed" }

/-- Witness for C7: the exhausted exclusion reload over the always-"A"
collaborator and a transport-failing guess both leave the mid-game state
intact apart from the status message (and the cleared guess input). -/
theorem C7_failures_atomic_witness :
    ((fetchGame collabAlwaysA ⟨true, some "A"⟩ sampleActiveState).1.game =
        sampleActiveState.game ∧
      (fetchGame collabAlwaysA ⟨true, some "A"⟩ sampleActiveState).1.previousClues =
        sampleActiveState.previousClues) ∧
    ((handleSubmitGuess GuessOutcome.transport sampleActiveState).1.previousClues =
        sampleActiveState.previousClues ∧
      (handleSubmitGuess GuessOutcome.transport sampleActiveState).1.guess = "") :=
  ⟨⟨(C7_failures_atomic.1 collabAlwaysA ⟨true, some "A"⟩ sampleActiveState
      (by decide)).1,
    (C7_failures_atomic.1 collabAlwaysA ⟨true, some "A"⟩ sampleActiveState
      (by decide)).2.2.2.1⟩,
   ⟨(C7_failures_atomic.2 sampleActiveState (by decide) (by decide)).2.2.1,
    (C7_failures_atomic.2 sampleActiveState (by decide) (by decide)).2.2.2.2.2.2.2.2⟩⟩

/-- Claim C8: once finished is true, a guess submission is a no-op — no
network call, no state change — and currentClueIndex, previousClues and
the session (hence movieSlug) are unchanged by a failed load; only a
successful session load replaces them. -/
theorem C8_finished_is_terminal :
    (∀ (st : AppState) (outcome : GuessOutcome), st.finished = true →
      handleSubmitGuess outcome st = (st, false)) ∧
    (∀ (collab : Nat → FetchOutcome) (options : FetchOptions) (st : AppState),
      ((fetchLoop collab options.requireDifferent options.excludeSlug
          (if options.requireDifferent then 5 else 1) 0).1 = LoopResult.exhausted ∨
       (fetchLoop collab options.requireDifferent options.excludeSlug
          (if options.requireDifferent then 5 else 1) 0).1 = LoopResult.threw) →
      (fetchGame collab options st).1.game = st.game ∧
      (fetchGame collab options st).1.currentClueIndex = st.currentClueIndex ∧
      (fetchGame collab options st).1.previousClues = st.previousClues) := by
  constructor
  · intro st outcome h
    simp [handleSubmitGuess, h]
  · intro collab options st h
    rcases hl : fetchLoop collab options.requireDifferent options.excludeSlug
        (if options.requireDifferent then 5 else 1) 0 with ⟨res, n⟩
    rw [hl] at h
    simp only at h
    rcases h with rfl | rfl
    · have := fetchGame_exhausted collab options st n hl
      simp [this]
    · have := fetchGame_threw collab options st n hl
      simp [this]

/-- A finished session state (slug "B", revealed title). -/
def sampleFinishedState : AppState :=
  { sampleActiveState with
      finished := true
      revealedTitle := some "Movie B" }

/-- Witness for C8: submitting any guess against the finished sample state
changes nothing and issues no POST, and the exhausted reload leaves its
index and clue history alone. -/
theorem C8_finished_is_terminal_witness :
    handleSubmitGuess GuessOutcome.transport sampleFinishedState =
      (sampleFinishedState, false) ∧
    ((fetchGame collabAlwaysA ⟨true, some "A"⟩ sampleFinishedState).1.currentClueIndex =
        sampleFinishedState.currentClueIndex ∧
      (fetchGame collabAlwaysA ⟨true, some "A"⟩ sampleFinishedState).1.previousClues =
        sampleFinishedState.previousClues) :=
  ⟨C8_finished_is_terminal.1 sampleFinishedState GuessOutcome.transport (by decide),
   ⟨(C8_finished_is_terminal.2 collabAlwaysA ⟨true, some "A"⟩ sampleFinishedState
       (by decide)).2.1,
    (C8_finished_is_terminal.2 collabAlwaysA ⟨true, some "A"⟩ sampleFinishedState
       (by decide)).2.2⟩⟩

/-- Claim C9: on a finishing verdict, currentClueIndex is unchanged,
currentClueText is overwritten only by a non-null non-empty
next_clue_text, posterUrl only by a non-null non-empty reveal_poster_url,
and revealedTitle is set to reveal_title even when that is null. -/
theorem C9_finishing_frame (st : AppState) (g : TodayGameResponse)
    (r : GuessResponse) (hg : st.game = some g) (hf : st.finished = false)
    (hv : (r.correct || r.finished) = true) :
    (handleSubmitGuess (GuessOutcome.ok r) st).1.currentClueIndex =
      st.currentClueIndex ∧
    (handleSubmitGuess (GuessOutcome.ok r) st).1.currentClueText =
      (if jsTruthyStr r.next_clue_text then r.next_clue_text
       else st.currentClueText) ∧
    (handleSubmitGuess (GuessOutcome.ok r) st).1.posterUrl =
      (if jsTruthyStr r.reveal_poster_url then r.reveal_poster_url
       else st.posterUrl) ∧
    (handleSubmitGuess (GuessOutcome.ok r) st).1.revealedTitle =
      r.reveal_title ∧
    (handleSubmitGuess (GuessOutcome.ok r) st).1.finished = true := by
  simp [handleSubmitGuess, hg, hf, hv]

/-- A finishing verdict with a null reveal_title, null next_clue_text and an
empty reveal_poster_url. -/
def finishVerdictNulls : GuessResponse :=
  { correct := true
    finished := true
    next_clue_index := 3
    next_clue_text := none
    reveal_title := none
    reveal_poster_url := some ""
    message := "Correct!" }

/-- Witness for C9: at the mid-game state, the all-null finishing verdict
keeps the clue text and poster and stores the null revealed title. -/
theorem C9_finishing_frame_witness :
    (handleSubmitGuess (GuessOutcome.ok finishVerdictNulls) sampleActiveState).1.currentClueIndex =
      sampleActiveState.currentClueIndex ∧
    (handleSubmitGuess (GuessOutcome.ok finishVerdictNulls) sampleActiveState).1.currentClueText =
      (if jsTruthyStr finishVerdictNulls.next_clue_text then
        finishVerdictNulls.next_clue_text
       else sampleActiveState.currentClueText) ∧
    (handleSubmitGuess (GuessOutcome.ok finishVerdictNulls) sampleActiveState).1.posterUrl =
      (if jsTruthyStr finishVerdictNulls.reveal_poster_url then
        finishVerdictNulls.reveal_poster_url
       else sampleActiveState.posterUrl) ∧
    (handleSubmitGuess (GuessOutcome.ok finishVerdictNulls) sampleActiveState).1.revealedTitle =
      finishVerdictNulls.reveal_title ∧
    (handleSubmitGuess (GuessOutcome.ok finishVerdictNulls) sampleActiveState).1.finished =
      true :=
  C9_finishing_frame sampleActiveState sampleGameB finishVerdictNulls
    (by decide) (by decide) (by decide)

/-- A non-finishing (advancing) verdict moving to clue index 1, text "C2". -/
def advanceVerdict : GuessResponse :=
  { correct := false
    finished := false
    next_clue_index := 1
    next_clue_text := some "C2"
    reveal_title := none
    reveal_poster_url := none
    message := "Not quite!" }

/-- A loaded, unfinished state whose current clue text is the empty string. -/
def emptyClueState : AppState :=
  { initialState with
      game := some sampleGameB
      currentClueText := some "" }

/-- Counterexample to C1: at a loaded state whose current clue text is the
empty string, a successful non-finishing verdict advances the session but
does NOT append the pre-submission clue text to previousClues (the source
guards the append behind JS truthiness of the text). -/
theorem C1_counterexample :
    emptyClueState.currentClueText = some "" ∧
    advanceVerdict.correct = false ∧ advanceVerdict.finished = false ∧
    (handleSubmitGuess (GuessOutcome.ok advanceVerdict) emptyClueState).1.currentClueIndex =
      advanceVerdict.next_clue_index ∧
    (handleSubmitGuess (GuessOutcome.ok advanceVerdict) emptyClueState).1.previousClues ≠
      emptyClueState.previousClues ++ [""] := by
  decide

/-- Amended C1: on a successfully received verdict, correct-or-finished
yields the Finished transition (finished true, revealedTitle set to
reveal_title, previousClues untouched); otherwise the session advances to
next_clue_index/next_clue_text and the pre-submission clue text is
appended to previousClues provided it was non-null and non-empty (a null
or empty current clue text is not appended). -/
theorem C1_verdict_transition (st : AppState) (g : TodayGameResponse)
    (r : GuessResponse) (hg : st.game = some g) (hf : st.finished = false) :
    ((r.correct || r.finished) = true →
      (handleSubmitGuess (GuessOutcome.ok r) st).1.finished = true ∧
      (handleSubmitGuess (GuessOutcome.ok r) st).1.revealedTitle =
        r.reveal_title ∧
      (handleSubmitGuess (GuessOutcome.ok r) st).1.previousClues =
        st.previousClues) ∧
    ((r.correct || r.finished) = false →
      (handleSubmitGuess (GuessOutcome.ok r) st).1.finished = false ∧
      (handleSubmitGuess (GuessOutcome.ok r) st).1.currentClueIndex =
        r.next_clue_index ∧
      (handleSubmitGuess (GuessOutcome.ok r) st).1.currentClueText =
        r.next_clue_text ∧
      (handleSubmitGuess (GuessOutcome.ok r) st).1.previousClues =
        (if jsTruthyStr st.currentClueText then
          st.previousClues ++ [st.currentClueText.getD ""]
         else st.previousClues)) := by
  constructor
  · intro hv
    simp [handleSubmitGuess, hg, hf, hv]
  · intro hv
    refine ⟨?_, ?_, ?_, ?_⟩ <;>
      · simp only [handleSubmitGuess, hg, hf]
        rcases ht : st.currentClueText with _ | t
        · simp [hv, ht, jsTruthyStr]
        · by_cases he : t = "" <;> simp [hv, ht, he, jsTruthyStr]

/-- Witness for C1 (amended): the advancing verdict at the mid-game state
(current clue "C2", non-empty) appends "C2" and moves to the next clue
of the verdict. -/
theorem C1_verdict_transition_witness :
    (handleSubmitGuess (GuessOutcome.ok advanceVerdict) sampleActiveState).1.finished = false ∧
    (handleSubmitGuess (GuessOutcome.ok advanceVerdict) sampleActiveState).1.currentClueIndex =
      advanceVerdict.next_clue_index ∧
    (handleSubmitGuess (GuessOutcome.ok advanceVerdict) sampleActiveState).1.currentClueText =
      advanceVerdict.next_clue_text ∧
    (handleSubmitGuess (GuessOutcome.ok advanceVerdict) sampleActiveState).1.previousClues =
      (if jsTruthyStr sampleActiveState.currentClueText then
        sampleActiveState.previousClues ++ [sampleActiveState.currentClueText.getD ""]
       else sampleActiveState.previousClues) :=
  (C1_verdict_transition sampleActiveState sampleGameB advanceVerdict
    (by decide) (by decide)).2 (by decide)

/-- A run of well-formed non-finishing verdicts starting from clue index
`idx`: each verdict is neither correct nor finished, advances the index by
one, and carries a non-null non-empty next clue text. -/
def goodRun : Nat → List GuessResponse → Bool
  | _, [] => true
  | idx, r :: rs =>
    !r.correct && !r.finished && (r.next_clue_index == idx + 1) &&
      jsTruthyStr r.next_clue_text && goodRun (idx + 1) rs

/-- Unfolding the guess handler on the advancing path. -/
theorem handleSubmitGuess_advance (st : AppState) (r : GuessResponse)
    (hg : st.game.isNone = false) (hf : st.finished = false)
    (hv : (r.correct || r.finished) = false) :
    (handleSubmitGuess (GuessOutcome.ok r) st).1 =
      { st with
          statusMessage := some r.message
          previousClues :=
            match st.currentClueText with
            | some t => if t == "" then st.previousClues
                        else st.previousClues ++ [t]
            | none => st.previousClues
          currentClueIndex := r.next_clue_index
          currentClueText := r.next_clue_text
          guess := "" } := by
  simp [handleSubmitGuess, hg, hf, hv]

/-- Invariant of a run of well-formed non-finishing guesses: the session and
finished flag are untouched, the index advances by the number of guesses,
and previousClues gains exactly the clue texts that were current before
each guess, in order. -/
theorem runGuesses_invariant :
    ∀ (rs : List GuessResponse) (st : AppState) (g : TodayGameResponse),
    st.game = some g → st.finished = false →
    jsTruthyStr st.currentClueText = true →
    goodRun st.currentClueIndex rs = true →
    (runGuesses st rs).game = some g ∧
    (runGuesses st rs).finished = false ∧
    jsTruthyStr (runGuesses st rs).currentClueText = true ∧
    (runGuesses st rs).currentClueIndex = st.currentClueIndex + rs.length ∧
    (runGuesses st rs).previousClues.map Option.some =
      st.previousClues.map Option.some ++ guessTrace st rs := by
  intro rs
  induction rs with
  | nil =>
    intro st g hg hf ht _
    simp [runGuesses, guessTrace, hg, hf, ht]
  | cons r rs ih =>
    intro st g hg hf ht hrun
    simp only [goodRun, Bool.and_eq_true, Bool.not_eq_true', beq_iff_eq] at hrun
    obtain ⟨⟨⟨⟨hc, hd⟩, hidx⟩, htxt⟩, hrest⟩ := hrun
    rcases htt : st.currentClueText with _ | t
    · rw [htt] at ht; simp [jsTruthyStr] at ht
    have hte : ¬(t == "") = true := by
      rw [htt] at ht; simpa [jsTruthyStr] using ht
    have hstep := handleSubmitGuess_advance st r (by simp [hg]) hf
      (by simp [hc, hd])
    have hrs : runGuesses st (r :: rs) =
        runGuesses (handleSubmitGuess (GuessOutcome.ok r) st).1 rs := by
      simp [runGuesses]
    have hih := ih (handleSubmitGuess (GuessOutcome.ok r) st).1 g
      (by rw [hstep]; exact hg)
      (by rw [hstep]; exact hf)
      (by rw [hstep]; simpa using htxt)
      (by rw [hstep]; simpa [hidx] using hrest)
    rw [hrs]
    refine ⟨hih.1, hih.2.1, hih.2.2.1, ?_, ?_⟩
    · rw [hih.2.2.2.1, hstep]
      simp [hidx]
      omega
    · rw [hih.2.2.2.2]
      simp only [guessTrace, htt]
      rw [hstep]
      have hte2 : t ≠ "" := by simpa using hte
      rw [htt]
      simp [hte2, List.append_assoc]

/-- The state after a successful plain load of session `g`. -/
def loadSession (g : TodayGameResponse) : AppState :=
  (fetchGame (fun _ => FetchOutcome.ok g) ⟨false, none⟩ initialState).1

/-- Each run records one pre-guess clue text per guess. -/
theorem guessTrace_length (st : AppState) :
    ∀ rs : List GuessResponse, (guessTrace st rs).length = rs.length := by
  intro rs
  induction rs generalizing st with
  | nil => simp [guessTrace]
  | cons r rs ih => simp [guessTrace, ih]

/-- Claim C3: in a freshly loaded session (index 0, non-empty first clue),
after any run of successful well-formed non-finishing guesses the
invariant previousClues.length = currentClueIndex holds, previousClues
has exactly one entry per guess, and the k-th entry is the clue text that
was current immediately before the k-th guess. -/
theorem C3_history_invariant (g : TodayGameResponse) (rs : List GuessResponse)
    (h0 : g.current_clue_index = 0) (h1 : g.current_clue_text ≠ "")
    (h2 : goodRun 0 rs = true) :
    (runGuesses (loadSession g) rs).previousClues.length =
      (runGuesses (loadSession g) rs).currentClueIndex ∧
    (runGuesses (loadSession g) rs).previousClues.length = rs.length ∧
    (runGuesses (loadSession g) rs).previousClues.map Option.some =
      guessTrace (loadSession g) rs := by
  have hload : loadSession g =
      { initialState with
          game := some g
          currentClueIndex := g.current_clue_index
          currentClueText := some g.current_clue_text
          posterUrl := g.poster_url
          previousClues := []
          guess := ""
          finished := false
          revealedTitle := none
          statusMessage := none
          isLoadingGame := false } := by
    have hloop : fetchLoop (fun _ => FetchOutcome.ok g) false none 1 0 =
        (LoopResult.found g, 1) := by
      simp [fetchLoop, acceptGame]
    have := fetchGame_found (fun _ => FetchOutcome.ok g) ⟨false, none⟩
      initialState g 1 (by simpa using hloop)
    simp [loadSession, this]
  have hinv := runGuesses_invariant rs (loadSession g) g
    (by rw [hload])
    (by rw [hload])
    (by rw [hload]; simpa [jsTruthyStr] using h1)
    (by rw [hload]; simpa [h0] using h2)
  have hlen : (runGuesses (loadSession g) rs).previousClues.length = rs.length := by
    have := congrArg List.length hinv.2.2.2.2
    simpa [guessTrace_length, hload] using this
  refine ⟨?_, hlen, ?_⟩
  · rw [hlen, hinv.2.2.2.1, hload]
    simp [h0]
  · have := hinv.2.2.2.2
    rw [hload] at this ⊢
    simpa using this

/-- A second advancing verdict (clue index 2, text "C3"). -/
def advanceVerdict2 : GuessResponse :=
  { correct := false
    finished := false
    next_clue_index := 2
    next_clue_text := some "C3"
    reveal_title := none
    reveal_poster_url := none
    message := "Nope!"
  }

/-- Witness for C3: loading the slug-"B" session and making two advancing
guesses leaves two recorded clues, equal to the texts current before each
guess, with the invariant length = index. -/
theorem C3_history_invariant_witness :
    (runGuesses (loadSession sampleGameB) [advanceVerdict, advanceVerdict2]).previousClues.length =
      (runGuesses (loadSession sampleGameB) [advanceVerdict, advanceVerdict2]).currentClueIndex ∧
    (runGuesses (loadSession sampleGameB) [advanceVerdict, advanceVerdict2]).previousClues.length =
      ([advanceVerdict, advanceVerdict2] : List GuessResponse).length ∧
    (runGuesses (loadSession sampleGameB) [advanceVerdict, advanceVerdict2]).previousClues.map Option.some =
      guessTrace (loadSession sampleGameB) [advanceVerdict, advanceVerdict2] :=
  C3_history_invariant sampleGameB [advanceVerdict, advanceVerdict2]
    (by decide) (by decide) (by decide)

/-- Rounding to two decimals is monotone. -/
theorem round2_mono {a b : ℚ} (h : a ≤ b) : round2 a ≤ round2 b := by
  unfold round2
  have h1 : round (100 * a) ≤ round (100 * b) := by
    rw [round_eq, round_eq]
    exact Int.floor_mono (by linarith)
  have h2 : ((round (100 * a) : ℤ) : ℚ) ≤ ((round (100 * b) : ℤ) : ℚ) := by
    exact_mod_cast h1
  linarith

/-- The state on clue index 1 of an 8-clue session with a poster. -/
def blurState8 : AppState :=
  { initialState with
      game := some { sampleGameB with total_clues := 8 }
      posterUrl := some "p"
      currentClueIndex := 1 }

/-- Counterexample to C5: on clue 1 of 8 the source rounds the interpolated
blur through `toFixed(2)`, returning 27.43 rather than the exact value
30 − (1/7)·18 = 192/7 of the claimed formula. -/
theorem C5_counterexample :
    posterBlurAmount blurState8 = 2743 / 100 ∧
    posterBlurAmount blurState8 ≠
      30 - min ((blurState8.currentClueIndex : ℚ) / max ((8 : ℚ) - 1) 1) 1 *
        (30 - 12) := by
  have hval : posterBlurAmount blurState8 = 2743 / 100 := by
    simp [posterBlurAmount, blurState8, initialState, sampleGameB, jsTruthyStr,
      round2]
    norm_num [round_eq]
  refine ⟨hval, ?_⟩
  rw [hval]
  simp [blurState8, initialState]
  norm_num

/-- Amended C5: the blur equals the claimed linear interpolation rounded to
two decimal places (the `toFixed(2)` of the source); it is still monotonically
non-increasing in currentClueIndex, equals exactly 12 at
currentClueIndex = totalClues − 1 for totalClues ≥ 2, and equals 0
whenever the session is finished or no poster is available. -/
theorem C5_blur_computation :
    (∀ st : AppState, st.finished = true → posterBlurAmount st = 0) ∧
    (∀ st : AppState, jsTruthyStr st.posterUrl = false → posterBlurAmount st = 0) ∧
    (∀ (st : AppState) (g : TodayGameResponse), st.game = some g →
      st.finished = false → jsTruthyStr st.posterUrl = true →
      posterBlurAmount st =
        round2 (30 - min ((st.currentClueIndex : ℚ) /
          max ((g.total_clues : ℚ) - 1) 1) 1 * (30 - 12))) ∧
    (∀ (st : AppState) (j : Nat), st.currentClueIndex ≤ j →
      posterBlurAmount { st with currentClueIndex := j } ≤ posterBlurAmount st) ∧
    (∀ (st : AppState) (g : TodayGameResponse), st.game = some g →
      st.finished = false → jsTruthyStr st.posterUrl = true →
      2 ≤ g.total_clues → st.currentClueIndex = g.total_clues - 1 →
      posterBlurAmount st = 12) := by
  refine ⟨?_, ?_, ?_, ?_, ?_⟩
  · intro st h
    cases hg : st.game <;> simp [posterBlurAmount, hg, h]
  · intro st h
    cases hg : st.game <;> simp [posterBlurAmount, hg, h]
  · intro st g hg hf hp
    simp [posterBlurAmount, hg, hf, hp]
  · intro st j h
    cases hg : st.game with
    | none => simp [posterBlurAmount, hg]
    | some g =>
      by_cases hp : jsTruthyStr st.posterUrl
      · by_cases hfin : st.finished
        · simp [posterBlurAmount, hg, hp, hfin]
        · simp only [posterBlurAmount, hg, hp, hfin, Bool.not_true,
            Bool.not_false, if_true, if_false, Bool.false_eq_true]
          apply round2_mono
          have hsteps : (0 : ℚ) < max ((g.total_clues : ℚ) - 1) 1 :=
            lt_of_lt_of_le zero_lt_one (le_max_right _ _)
          have hij : (st.currentClueIndex : ℚ) ≤ (j : ℚ) := by exact_mod_cast h
          have hdiv : (st.currentClueIndex : ℚ) / max ((g.total_clues : ℚ) - 1) 1 ≤
              (j : ℚ) / max ((g.total_clues : ℚ) - 1) 1 :=
            (div_le_div_iff_of_pos_right hsteps).mpr hij
          have hmin := min_le_min hdiv (le_refl (1 : ℚ))
          nlinarith [hmin]
      · simp [posterBlurAmount, hg, hp]
  · intro st g hg hf hp h2 hidx
    simp only [posterBlurAmount, hg, hf, hp, Bool.not_true, Bool.not_false,
      if_true, if_false, Bool.false_eq_true]
    have hcast : (st.currentClueIndex : ℚ) = (g.total_clues : ℚ) - 1 := by
      rw [hidx]
      push_cast [Nat.cast_sub (by omega : 1 ≤ g.total_clues)]
      ring
    have htot : (2 : ℚ) ≤ (g.total_clues : ℚ) := by exact_mod_cast h2
    have hmax : max ((g.total_clues : ℚ) - 1) 1 = (g.total_clues : ℚ) - 1 :=
      max_eq_left (by linarith)
    rw [hcast, hmax, div_self (by linarith : (g.total_clues : ℚ) - 1 ≠ 0)]
    norm_num [round2, round_eq]

/-- Witness for C5 (amended): on clue 1 of 8 clues with a poster and an
unfinished session, the blur equals the rounded interpolation. -/
theorem C5_blur_computation_witness :
    posterBlurAmount blurState8 =
      round2 (30 - min ((blurState8.currentClueIndex : ℚ) /
        max ((({ sampleGameB with total_clues := 8 } : TodayGameResponse).total_clues : ℚ) - 1) 1) 1 *
        (30 - 12)) :=
  C5_blur_computation.2.2.1 blurState8 { sampleGameB with total_clues := 8 }
    (by decide) (by decide) (by decide)

/-- Claim C6: for every loaded session, the clue-progress percentage equals
min((currentClueIndex+1)/totalClues, 1) × 100, lies in [0,100], equals
100 at currentClueIndex = totalClues − 1, and is strictly increasing in
currentClueIndex below that. -/
theorem C6_progress_percent (st : AppState) (g : TodayGameResponse)
    (hg : st.game = some g) (ht : 1 ≤ g.total_clues) :
    clueProgressPercent st =
      min (((st.currentClueIndex : ℚ) + 1) / (g.total_clues : ℚ)) 1 * 100 ∧
    0 ≤ clueProgressPercent st ∧ clueProgressPercent st ≤ 100 ∧
    (st.currentClueIndex = g.total_clues - 1 → clueProgressPercent st = 100) ∧
    (st.currentClueIndex < g.total_clues - 1 →
      clueProgressPercent st <
        clueProgressPercent { st with currentClueIndex := st.currentClueIndex + 1 }) := by
  have hT : (0 : ℚ) < (g.total_clues : ℚ) := by exact_mod_cast ht
  refine ⟨?_, ?_, ?_, ?_, ?_⟩
  · simp only [clueProgressPercent, hg]
    rcases le_total (((st.currentClueIndex : ℚ) + 1) / (g.total_clues : ℚ)) 1 with h | h
    · rw [min_eq_left h, min_eq_left (by nlinarith)]
    · rw [min_eq_right h, min_eq_right (by nlinarith)]
      norm_num
  · simp only [clueProgressPercent, hg]
    exact le_min (by positivity) (by norm_num)
  · simp only [clueProgressPercent, hg]
    exact min_le_right _ _
  · intro hidx
    simp only [clueProgressPercent, hg]
    have hnum : (st.currentClueIndex : ℚ) + 1 = (g.total_clues : ℚ) := by
      have : st.currentClueIndex + 1 = g.total_clues := by omega
      exact_mod_cast this
    rw [hnum, div_self (ne_of_gt hT)]
    norm_num
  · intro hidx
    have h2 : st.currentClueIndex + 2 ≤ g.total_clues := by omega
    simp only [clueProgressPercent, hg]
    have hle1 : ((st.currentClueIndex : ℚ) + 1) / (g.total_clues : ℚ) * 100 ≤ 100 := by
      have : (st.currentClueIndex : ℚ) + 1 ≤ (g.total_clues : ℚ) := by
        exact_mod_cast (by omega : st.currentClueIndex + 1 ≤ g.total_clues)
      have := (div_le_one hT).mpr this
      nlinarith
    have hle2 : ((st.currentClueIndex : ℚ) + 1 + 1) / (g.total_clues : ℚ) * 100 ≤ 100 := by
      have : (st.currentClueIndex : ℚ) + 1 + 1 ≤ (g.total_clues : ℚ) := by
        exact_mod_cast (by omega : st.currentClueIndex + 1 + 1 ≤ g.total_clues)
      have := (div_le_one hT).mpr this
      nlinarith
    have hcast : (((st.currentClueIndex + 1 : Nat) : ℚ)) =
        (st.currentClueIndex : ℚ) + 1 := by push_cast; ring
    rw [min_eq_left hle1, hcast, min_eq_left hle2]
    have hlt : ((st.currentClueIndex : ℚ) + 1) / (g.total_clues : ℚ) <
        ((st.currentClueIndex : ℚ) + 1 + 1) / (g.total_clues : ℚ) :=
      (div_lt_div_iff_of_pos_right hT).mpr (by linarith)
    nlinarith

/-- A mid-game state on clue index 2 of the 5-clue slug-"B" session. -/
def progressState : AppState :=
  { initialState with
      game := some sampleGameB
      currentClueIndex := 2
      currentClueText := some "C3" }

/-- Witness for C6: on clue index 2 of 5 the percentage is min(3/5,1)·100,
in range, and below the terminal index. -/
theorem C6_progress_percent_witness :
    clueProgressPercent progressState =
      min (((progressState.currentClueIndex : ℚ) + 1) /
        (sampleGameB.total_clues : ℚ)) 1 * 100 ∧
    0 ≤ clueProgressPercent progressState ∧
    clueProgressPercent progressState ≤ 100 ∧
    (progressState.currentClueIndex = sampleGameB.total_clues - 1 →
      clueProgressPercent progressState = 100) ∧
    (progressState.currentClueIndex < sampleGameB.total_clues - 1 →
      clueProgressPercent progressState <
        clueProgressPercent
          { progressState with
              currentClueIndex := progressState.currentClueIndex + 1 }) :=
  C6_progress_percent progressState sampleGameB (by decide) (by decide)
